import Mathlib

/-!
Verification of the PM2.5 / weather analysis script
(src/Weather Analysis tool/pm25_weather_analysis.py).

The script is shallowly embedded:
* an `Obs` is one row of the pandas DataFrame (date plus the four signal
  columns); dates are day serials (days since 1970-01-01, as integers);
* `create_sample_dataset` embeds the synthetic generator: NumPy's seeded
  random draws are modelled by an abstract stream `g : ℕ → ℝ` of draw
  values (the stream is a function of the seed only, so it does not depend
  on the wall-clock end date), consumed at sequential positions exactly as
  the four `np.random` calls consume the seeded state;
* `analyze_air_quality_weather` embeds the statistics step, with pandas'
  in-place `df['month'] = ...` column assignment made explicit by
  returning the updated frame;
* `fetch_air_quality_data` embeds the live-fetch branching on a single
  HTTP outcome, with `None` returns as `Option.none` and Python dicts for
  the `data` payload as association lists.
-/

namespace PM25

open List

/-- Month (1..12) of a day serial (days since 1970-01-01), by the standard
civil-from-days conversion for the proleptic Gregorian calendar, which is the
calendar Python's `datetime` / pandas `.dt.month` use. -/
def monthOf (z : ℤ) : ℕ :=
  let doe : ℕ := (z + 719468 - ((z + 719468).ediv 146097) * 146097).toNat
  let yoe : ℕ := (doe - doe / 1460 + doe / 36524 - doe / 146096) / 365
  let doy : ℕ := doe - (365 * yoe + yoe / 4 - yoe / 100)
  let mp : ℕ := (5 * doy + 2) / 153
  if mp < 10 then mp + 3 else mp - 9

/-- One row of the DataFrame built by `create_sample_dataset`: the date and
the four signal columns. -/
structure Obs where
  date : ℤ
  pm25 : ℝ
  temperature : ℝ
  humidity : ℝ
  wind_speed : ℝ

instance : Inhabited Obs := ⟨⟨0, 0, 0, 0, 0⟩⟩

/-- `np.clip(x, lo, hi)`. -/
noncomputable def clip (x lo hi : ℝ) : ℝ := min (max x lo) hi

/-- `pm25[i]`: `np.clip(25 + 10*sin(2π i/365) + normal(0,8)[i], 5, 80)`;
the draw `normal(0, 8, n)[i]` is stream position `i`. -/
noncomputable def pm25_val (n i : ℕ) (g : ℕ → ℝ) : ℝ :=
  clip (25 + 10 * Real.sin (2 * Real.pi * i / 365) + g i) 5 80

/-- `temperature[i] = 12 + 15*sin(2π i/365) + normal(0,5)[i]`, not clipped;
the draw `normal(0, 5, n)[i]` is stream position `n + i`. -/
noncomputable def temperature_val (n i : ℕ) (g : ℕ → ℝ) : ℝ :=
  12 + 15 * Real.sin (2 * Real.pi * i / 365) + g (n + i)

/-- `humidity[i] = np.clip(70 - 0.5*temperature[i] + normal(0,10)[i], 30, 95)`
(the noisy temperature, as in the source); the draw `normal(0, 10, n)[i]` is
stream position `2n + i`. -/
noncomputable def humidity_val (n i : ℕ) (g : ℕ → ℝ) : ℝ :=
  clip (70 - 0.5 * temperature_val n i g + g (2 * n + i)) 30 95

/-- `wind_speed[i] = np.clip(3 + 2*sin(2π i/365 + π/4) + exponential(1)[i],
0.5, 12)`; the draw `exponential(1, n)[i]` is stream position `3n + i`. -/
noncomputable def wind_speed_val (n i : ℕ) (g : ℕ → ℝ) : ℝ :=
  clip (3 + 2 * Real.sin (2 * Real.pi * i / 365 + Real.pi / 4) + g (3 * n + i)) 0.5 12

/-- `create_sample_dataset(n_days)`: one row per date in
`pd.date_range(now - n_days days, now, freq='D')`, i.e. dates
`today - n_days, ..., today` (day serials), with the four signal columns
computed from the seeded draw stream `g`.  `today` is the day serial of
`datetime.now()`; `g` is the draw stream determined by `np.random.seed(42)`.
The source performs no validation of `n_days`. -/
noncomputable def create_sample_dataset (n_days : ℕ) (today : ℤ) (g : ℕ → ℝ) : List Obs :=
  (List.range (n_days + 1)).map fun (i : ℕ) =>
    { date := today - n_days + (i : ℤ)
      pm25 := pm25_val (n_days + 1) i g
      temperature := temperature_val (n_days + 1) i g
      humidity := humidity_val (n_days + 1) i g
      wind_speed := wind_speed_val (n_days + 1) i g }

theorem create_sample_dataset_map_date (n_days : ℕ) (today : ℤ) (g : ℕ → ℝ) :
    (create_sample_dataset n_days today g).map Obs.date
      = (List.range (n_days + 1)).map fun (i : ℕ) => today - n_days + (i : ℤ) := by
  simp only [create_sample_dataset, List.map_map]
  rfl

theorem create_sample_dataset_length (n_days : ℕ) (today : ℤ) (g : ℕ → ℝ) :
    (create_sample_dataset n_days today g).length = n_days + 1 := by
  simp [create_sample_dataset]

theorem clip_le (x lo hi : ℝ) : clip x lo hi ≤ hi := min_le_right _ _

theorem le_clip (x lo hi : ℝ) (h : lo ≤ hi) : lo ≤ clip x lo hi :=
  le_min (le_max_right _ _) h

/-- C1: for `n_days ≥ 1` the generated series has exactly `n_days + 1` rows,
its dates are consecutive (each successor date is the predecessor plus one
day, hence strictly ascending, no gaps), and the last date is the current
date `today`. -/
theorem generate_length_and_dates (n_days : ℕ) (today : ℤ) (g : ℕ → ℝ)
    (h : 1 ≤ n_days) :
    (create_sample_dataset n_days today g).length = n_days + 1
    ∧ List.Chain' (fun a b : ℤ => b = a + 1)
        ((create_sample_dataset n_days today g).map Obs.date)
    ∧ ((create_sample_dataset n_days today g).map Obs.date).getLast? = some today := by
  refine ⟨create_sample_dataset_length n_days today g, ?_, ?_⟩
  · rw [create_sample_dataset_map_date, List.chain'_map, List.chain'_range_succ]
    intro m _
    push_cast
    ring
  · rw [create_sample_dataset_map_date, List.range_succ, List.map_append]
    simp

/-- C1 witness at `n_days = 1`, `today = 0`, zero draw stream. -/
theorem generate_length_and_dates_witness :
    (1 : ℕ) ≤ 1
    ∧ ((create_sample_dataset 1 0 (fun _ => 0)).length = 1 + 1
      ∧ List.Chain' (fun a b : ℤ => b = a + 1)
          ((create_sample_dataset 1 0 (fun _ => 0)).map Obs.date)
      ∧ ((create_sample_dataset 1 0 (fun _ => 0)).map Obs.date).getLast? = some 0) :=
  ⟨le_refl 1, generate_length_and_dates 1 0 (fun _ => 0) (le_refl 1)⟩

/-- C2: every row of a generated series satisfies the clip bounds
`5 ≤ pm25 ≤ 80`, `30 ≤ humidity ≤ 95`, `0.5 ≤ wind_speed ≤ 12`, while the
temperature is exactly the raw (unclipped) seasonal formula
`12 + 15·sin(2π i/365)` plus its noise draw. -/
theorem generate_bounds (n_days : ℕ) (today : ℤ) (g : ℕ → ℝ) (o : Obs)
    (ho : o ∈ create_sample_dataset n_days today g) :
    (5 ≤ o.pm25 ∧ o.pm25 ≤ 80)
    ∧ (30 ≤ o.humidity ∧ o.humidity ≤ 95)
    ∧ (0.5 ≤ o.wind_speed ∧ o.wind_speed ≤ 12)
    ∧ ∃ i < n_days + 1,
        o.temperature
          = 12 + 15 * Real.sin (2 * Real.pi * i / 365) + g ((n_days + 1) + i) := by
  simp only [create_sample_dataset, List.mem_map, List.mem_range] at ho
  obtain ⟨i, hi, rfl⟩ := ho
  refine ⟨⟨le_clip _ _ _ (by norm_num), clip_le _ _ _⟩,
    ⟨le_clip _ _ _ (by norm_num), clip_le _ _ _⟩,
    ⟨le_clip _ _ _ (by norm_num), clip_le _ _ _⟩, i, hi, rfl⟩

/-- C2 witness: the single row of `create_sample_dataset 0 0 (fun _ => 0)`
satisfies all the bounds. -/
theorem generate_bounds_witness :
    (create_sample_dataset 0 0 (fun _ => 0)).headI
        ∈ create_sample_dataset 0 0 (fun _ => 0)
    ∧ (5 ≤ (create_sample_dataset 0 0 (fun _ => 0)).headI.pm25
      ∧ (create_sample_dataset 0 0 (fun _ => 0)).headI.pm25 ≤ 80) :=
  have hm : (create_sample_dataset 0 0 (fun _ => 0)).headI
      ∈ create_sample_dataset 0 0 (fun _ => 0) := by
    simp [create_sample_dataset, List.range_succ]
  ⟨hm, (generate_bounds 0 0 (fun _ => 0) _ hm).1⟩

/-- C5 counterexample: `generate(0)` does not fail — the source performs no
argument validation, and `pd.date_range(now, now, freq='D')` yields a single
date, so a one-row series is returned. -/
theorem generate_zero_returns_series :
    (create_sample_dataset 0 0 (fun _ => 0)).length = 1 := by
  simp [create_sample_dataset]

/-- C5 amended: `create_sample_dataset` performs no validation of `n_days`:
for `n_days = 0` it returns a series of exactly one observation (the current
date), instead of failing. -/
theorem generate_zero_no_validation (today : ℤ) (g : ℕ → ℝ) :
    (create_sample_dataset 0 today g).length = 1 := by
  simp [create_sample_dataset]

/-- C9: the four signal columns depend only on the day count and the seeded
draw stream, not on the wall-clock end date: two runs with the same `n_days`
and the same seed (hence the same stream `g`) produce elementwise identical
signal columns, even when the dates differ. -/
theorem generate_deterministic (n_days : ℕ) (t₁ t₂ : ℤ) (g : ℕ → ℝ) :
    (create_sample_dataset n_days t₁ g).map
        (fun o => (o.pm25, o.temperature, o.humidity, o.wind_speed))
      = (create_sample_dataset n_days t₂ g).map
        (fun o => (o.pm25, o.temperature, o.humidity, o.wind_speed)) := by
  simp only [create_sample_dataset, List.map_map]
  rfl

/-- The DataFrame state seen by `analyze_air_quality_weather`: the rows plus
the optional derived `month` column.  A freshly generated frame has
`month = none`; the analysis step assigns `df['month'] = df['date'].dt.month`
in place, which the embedding makes explicit by returning the updated frame. -/
structure Frame where
  obs : List Obs
  month : Option (List ℕ)

/-- The four columns listed in `correlation_cols` in the source. -/
inductive Signal where
  | pm25
  | temperature
  | humidity
  | wind_speed
deriving DecidableEq

def Signal.colVal : Signal → Obs → ℝ
  | .pm25 => Obs.pm25
  | .temperature => Obs.temperature
  | .humidity => Obs.humidity
  | .wind_speed => Obs.wind_speed

def correlation_cols : List Signal :=
  [.pm25, .temperature, .humidity, .wind_speed]

/-- Arithmetic mean of a list of values (sum / count). -/
noncomputable def mean (l : List ℝ) : ℝ := l.sum / l.length

noncomputable def colMean (df : Frame) (x : Signal) : ℝ :=
  mean (df.obs.map x.colVal)

/-- Unnormalised covariance of two columns: the sum of products of
deviations from the column means.  The sample-size normalisation cancels in
the Pearson quotient, so it is omitted. -/
noncomputable def cov (df : Frame) (x y : Signal) : ℝ :=
  (df.obs.map fun o => (x.colVal o - colMean df x) * (y.colVal o - colMean df y)).sum

open Classical in
/-- One entry of `df[correlation_cols].corr()`: the Pearson coefficient
`S_xy / (√S_xx · √S_yy)`.  pandas yields NaN (never an exception) whenever a
column has zero variance, which the embedding represents as `none`. -/
noncomputable def corr (df : Frame) (x y : Signal) : Option ℝ :=
  if cov df x x = 0 ∨ cov df y y = 0 then none
  else some (cov df x y / (Real.sqrt (cov df x x) * Real.sqrt (cov df y y)))

/-- The full matrix `df[correlation_cols].corr()`, rows and columns indexed
by `correlation_cols` in order. -/
noncomputable def corrMatrix (df : Frame) : List (List (Option ℝ)) :=
  correlation_cols.map fun x => correlation_cols.map fun y => corr df x y

/-- The group keys of `df.groupby('month')`: the distinct month values, in
ascending order (pandas sorts group keys by default). -/
def monthKeys (df : Frame) : List ℕ :=
  ((df.obs.map fun o => monthOf o.date).dedup).mergeSort

/-- `df.groupby('month')['pm25'].mean()`: for each month key, the arithmetic
mean of the pm25 values of the rows whose date falls in that month. -/
noncomputable def monthlyAgg (df : Frame) : List (ℕ × ℝ) :=
  (monthKeys df).map fun m =>
    (m, mean ((df.obs.filter fun o => monthOf o.date = m).map Obs.pm25))

/-- `analyze_air_quality_weather(df)`: computes the correlation matrix over
the four signal columns and the monthly pm25 means, and assigns the derived
`month` column to the caller's frame in place (first component of the
result: the state of `df` after the call). -/
noncomputable def analyze_air_quality_weather (df : Frame) :
    Frame × List (List (Option ℝ)) × List (ℕ × ℝ) :=
  ({ obs := df.obs, month := some (df.obs.map fun o => monthOf o.date) },
    corrMatrix df, monthlyAgg df)

theorem cov_comm (df : Frame) (x y : Signal) : cov df x y = cov df y x := by
  unfold cov
  congr 1
  exact List.map_congr_left fun o _ => mul_comm _ _

theorem cov_self_nonneg (df : Frame) (x : Signal) : 0 ≤ cov df x x := by
  refine List.sum_nonneg fun a ha => ?_
  obtain ⟨o, _, rfl⟩ := List.mem_map.mp ha
  exact mul_self_nonneg _

theorem corr_comm (df : Frame) (x y : Signal) : corr df x y = corr df y x := by
  unfold corr
  by_cases h : cov df x x = 0 ∨ cov df y y = 0
  · rw [if_pos h, if_pos h.symm]
  · rw [if_neg h, if_neg fun hc => h hc.symm, cov_comm df x y,
      mul_comm (Real.sqrt (cov df x x)) (Real.sqrt (cov df y y))]

/-- C3: the correlation matrix is exactly 4×4 over the four signals, it is
symmetric (`corr(x,y) = corr(y,x)` for all signal pairs), each diagonal entry
is `1.0` whenever the signal has non-zero variance, and a zero-variance
(constant) signal yields NaN (`none`) entries instead of an exception. -/
theorem correlation_matrix_props (df : Frame) :
    (corrMatrix df).length = 4
    ∧ (∀ row ∈ corrMatrix df, row.length = 4)
    ∧ (∀ x y, corr df x y = corr df y x)
    ∧ (∀ x, cov df x x ≠ 0 → corr df x x = some 1)
    ∧ (∀ x y, cov df x x = 0 → corr df x y = none) := by
  refine ⟨rfl, ?_, corr_comm df, ?_, ?_⟩
  · intro row hr
    simp only [corrMatrix, correlation_cols, List.mem_map, List.mem_cons,
      List.not_mem_nil, or_false] at hr
    obtain ⟨x, hx, rfl⟩ := hr
    rfl
  · intro x hx
    unfold corr
    rw [if_neg fun hc => hx (hc.elim id id), Real.mul_self_sqrt (cov_self_nonneg df x),
      div_self hx]
  · intro x y h
    unfold corr
    rw [if_pos (Or.inl h)]

/-- A concrete two-row frame whose pm25 column has non-zero variance. -/
def twoRowFrame : Frame :=
  { obs := [⟨0, 0, 0, 0, 0⟩, ⟨1, 2, 2, 2, 2⟩], month := none }

/-- A concrete two-row frame whose pm25 column is constant. -/
def constFrame : Frame :=
  { obs := [⟨0, 5, 0, 0, 0⟩, ⟨1, 5, 1, 1, 1⟩], month := none }

/-- C3 witness: on `twoRowFrame` the pm25 variance is non-zero and the
diagonal correlation entry is `1`; on `constFrame` the pm25 column is
constant and its correlation entries are NaN (`none`). -/
theorem correlation_matrix_props_witness :
    cov twoRowFrame .pm25 .pm25 ≠ 0
    ∧ corr twoRowFrame .pm25 .pm25 = some 1
    ∧ cov constFrame .pm25 .pm25 = 0
    ∧ corr constFrame .pm25 .temperature = none :=
  have h1 : cov twoRowFrame .pm25 .pm25 ≠ 0 := by
    norm_num [cov, colMean, mean, Signal.colVal, twoRowFrame]
  have h2 : cov constFrame .pm25 .pm25 = 0 := by
    norm_num [cov, colMean, mean, Signal.colVal, constFrame]
  ⟨h1, (correlation_matrix_props twoRowFrame).2.2.2.1 .pm25 h1,
    h2, (correlation_matrix_props constFrame).2.2.2.2 .pm25 .temperature h2⟩

theorem monthlyAgg_map_fst (df : Frame) :
    (monthlyAgg df).map Prod.fst = monthKeys df := by
  simp [monthlyAgg, List.map_map, Function.comp_def]

/-- C4: the keys of the monthly aggregate are exactly the distinct calendar
months occurring among the dates of the input series, in strictly ascending
month-number order, and the value at each key is the arithmetic mean of the
pm25 readings of the observations whose date falls in that month. -/
theorem monthly_aggregate_props (df : Frame) :
    (∀ m : ℕ, m ∈ (monthlyAgg df).map Prod.fst ↔ ∃ o ∈ df.obs, monthOf o.date = m)
    ∧ List.Chain' (· < ·) ((monthlyAgg df).map Prod.fst)
    ∧ ∀ p ∈ monthlyAgg df,
        p.2 = mean ((df.obs.filter fun o => monthOf o.date = p.1).map Obs.pm25) := by
  refine ⟨?_, ?_, ?_⟩
  · intro m
    rw [monthlyAgg_map_fst]
    simp [monthKeys, List.mem_mergeSort, List.mem_dedup]
  · rw [monthlyAgg_map_fst]
    have hs : List.Sorted (· ≤ ·) (monthKeys df) := by
      unfold monthKeys
      exact List.sorted_mergeSort' _
    have hn : (monthKeys df).Nodup :=
      ((List.mergeSort_perm _ _).nodup_iff).mpr (List.nodup_dedup _)
    exact ((hs.and hn).imp fun h => lt_of_le_of_ne h.1 h.2).chain'
  · intro p hp
    simp only [monthlyAgg, List.mem_map] at hp
    obtain ⟨m, _, rfl⟩ := hp
    rfl

/-- A frame consisting of one observation dated day serial 0
(1970-01-01, calendar month 1). -/
def oneRowFrame : Frame :=
  { obs := [⟨0, 7, 1, 2, 3⟩], month := none }

/-- C4 witness: the monthly aggregate of `oneRowFrame` contains the single
key 1 (January) with the mean of that month's pm25 readings as value. -/
theorem monthly_aggregate_props_witness :
    ((1 : ℕ), mean ((oneRowFrame.obs.filter fun o => monthOf o.date = 1).map Obs.pm25))
        ∈ monthlyAgg oneRowFrame
    ∧ ((1 : ℕ), mean ((oneRowFrame.obs.filter fun o => monthOf o.date = 1).map Obs.pm25)).2
        = mean ((oneRowFrame.obs.filter fun o =>
            monthOf o.date
              = ((1 : ℕ), mean ((oneRowFrame.obs.filter fun o =>
                  monthOf o.date = 1).map Obs.pm25)).1).map Obs.pm25) :=
  have hm0 : monthOf 0 = 1 := by decide
  have hmem : ((1 : ℕ), mean ((oneRowFrame.obs.filter fun o =>
      monthOf o.date = 1).map Obs.pm25)) ∈ monthlyAgg oneRowFrame := by
    simp [monthlyAgg, monthKeys, oneRowFrame, hm0]
  ⟨hmem, (monthly_aggregate_props oneRowFrame).2.2 _ hmem⟩

/-- C6 counterexample: on an empty series `summarize` does not fail — it
returns a result: the frame gains an empty `month` column, the correlation
matrix is 4×4 all-NaN (pandas `.corr()` on an empty frame), and the monthly
aggregate is empty. -/
theorem summarize_empty_returns :
    analyze_air_quality_weather ⟨[], none⟩
      = (⟨[], some []⟩,
          [[none, none, none, none], [none, none, none, none],
            [none, none, none, none], [none, none, none, none]],
          []) := by
  simp [analyze_air_quality_weather, corrMatrix, correlation_cols, corr, cov,
    monthlyAgg, monthKeys]

/-- C6 amended: `analyze_air_quality_weather` on an empty series returns
(rather than failing) a correlation matrix whose every entry is NaN (`none`)
and an empty monthly aggregate. -/
theorem summarize_empty_no_failure (x y : Signal) :
    corr ⟨[], none⟩ x y = none ∧ monthlyAgg ⟨[], none⟩ = [] := by
  constructor
  · simp [corr, cov]
  · simp [monthlyAgg, monthKeys]

/-- C7 counterexample: the call mutates its input — the caller's frame is not
the frame it passed in, because `df['month'] = df['date'].dt.month` adds a
`month` column in place. -/
theorem summarize_mutates_input :
    (analyze_air_quality_weather ⟨[⟨0, 1, 2, 3, 4⟩], none⟩).1
      ≠ (⟨[⟨0, 1, 2, 3, 4⟩], none⟩ : Frame) := by
  intro h
  have hmonth := congrArg Frame.month h
  simp [analyze_air_quality_weather] at hmonth

/-- C7 amended: `analyze_air_quality_weather` returns the correlation matrix
and the monthly aggregate, but it does have a frame effect: the input frame
gains the derived `month` column; the dates and the four signal columns are
unchanged. -/
theorem summarize_frame_effect (df : Frame) :
    (analyze_air_quality_weather df).1.obs = df.obs
    ∧ (analyze_air_quality_weather df).1.month
        = some (df.obs.map fun o => monthOf o.date)
    ∧ (analyze_air_quality_weather df).2.1 = corrMatrix df
    ∧ (analyze_air_quality_weather df).2.2 = monthlyAgg df :=
  ⟨rfl, rfl, rfl, rfl⟩

/-- The dict returned under the WAQI response's `data` key, as an
association list of fields (its contents are only read by `main`'s status
printout, so the field representation is opaque strings). -/
abbrev AQData := List (String × String)

/-- The parsed JSON body of a WAQI response: Python `dict.get` on a possibly
missing key is `Option`. -/
structure ApiBody where
  status : Option String
  message : Option String
  data : Option AQData

/-- The outcome of the single `requests.get` call: either a transport
exception (including a body that fails to parse as JSON), or a response with
a status code and parsed body. -/
inductive HttpOutcome where
  | failure
  | response (status_code : ℕ) (body : ApiBody)

/-- `fetch_air_quality_data`: one attempt; HTTP 200 with status field
`"ok"` yields `data.get('data', {})`; a non-200 code, a non-`"ok"` status
field, or a caught exception yields `None`.  Totality of this function is
the embedding of "never raises an uncaught exception". -/
def fetch_air_quality_data : HttpOutcome → Option AQData
  | .failure => none
  | .response code body =>
      if code = 200 then
        if body.status = some "ok" then some (body.data.getD []) else none
      else none

/-- Python truthiness of the fetch result, as tested by `if real_data:` in
`main`: `None` and the empty dict `{}` are both falsy. -/
def pyTruthy : Option AQData → Bool
  | none => false
  | some d => !d.isEmpty

/-- C8: the live fetch makes its single attempt and returns the absence
signal `None` on a transport exception, on any non-200 HTTP status, and on
any response whose status field is not `"ok"`; being a total function of the
one outcome, it never raises to its caller. -/
theorem fetch_absent_on_error :
    fetch_air_quality_data .failure = none
    ∧ (∀ (code : ℕ) (body : ApiBody), code ≠ 200 →
        fetch_air_quality_data (.response code body) = none)
    ∧ (∀ (code : ℕ) (body : ApiBody), body.status ≠ some "ok" →
        fetch_air_quality_data (.response code body) = none) := by
  refine ⟨rfl, ?_, ?_⟩
  · intro code body h
    simp [fetch_air_quality_data, h]
  · intro code body h
    by_cases hc : code = 200 <;> simp [fetch_air_quality_data, hc, h]

/-- C8 witness: HTTP 404 and an `"error"` status field both yield `None`. -/
theorem fetch_absent_on_error_witness :
    (404 : ℕ) ≠ 200
    ∧ fetch_air_quality_data (.response 404 ⟨some "ok", none, none⟩) = none
    ∧ (some "error" : Option String) ≠ some "ok"
    ∧ fetch_air_quality_data (.response 200 ⟨some "error", none, none⟩) = none :=
  ⟨by decide, fetch_absent_on_error.2.1 404 ⟨some "ok", none, none⟩ (by decide),
    by decide, fetch_absent_on_error.2.2 200 ⟨some "error", none, none⟩ (by decide)⟩

/-- C10: an HTTP 200 response with status field `"ok"` but no `data` key
returns the empty dict (the `data.get('data', {})` default), which is not the
absence sentinel `None`; yet `main`'s truthiness test evaluates the empty
dict and `None` identically (both falsy), so the caller treats this case as
absence. -/
theorem fetch_ok_missing_data_gives_empty_dict :
    fetch_air_quality_data (.response 200 ⟨some "ok", none, none⟩) = some []
    ∧ (some [] : Option AQData) ≠ none
    ∧ pyTruthy (fetch_air_quality_data (.response 200 ⟨some "ok", none, none⟩))
        = pyTruthy none := by
  refine ⟨by decide, by decide, by decide⟩

end PM25
